import Mathlib

/-!
Verification development for the smartlead-insights-dashboard data-acquisition
and export core.

Part 1 embeds the rate-limited request gateway (`SmartleadAPIService` in the
unnamed API-service source file): the request queue pushed by `makeRequest`,
the drain loop `processQueue`, the cache-checking transport wrapper
`executeRequest` with its HTTP error classification, and the domain endpoint
builders.

Part 2 embeds the export pipeline: the campaign filter and per-campaign
analytics fan-out of `ExportModal.handleExport`, and the document builder
`generateCampaignExport` with its four sheet constructors from
`src/lib/excel-export` (carried in `src/lib/types.ts` in this snapshot).

Modelling conventions:
* Time is in milliseconds as `ℕ`; `Date.now()` values are threaded explicitly.
* Response payloads are opaque; we use `ℕ` as the payload type.
* JavaScript numbers are modelled as `ℚ` where the source can only produce
  finite values, and as `JSNum` (which has NaN and infinities) where a
  division by zero can occur.
-/

/-- Opaque response payload (the parsed JSON body of an upstream response). -/
abbrev Payload := ℕ

/-- `RATE_LIMIT_DELAY = 200` ms, from the service class constants. -/
def RATE_LIMIT_DELAY : ℕ := 200

/-- `CACHE_DURATION = 5 * 60 * 1000` ms, from the service class constants. -/
def CACHE_DURATION : ℕ := 5 * 60 * 1000

/-- A cache entry `{ data, timestamp }` as stored in `this.cache`. -/
structure CacheEntry where
  data : Payload
  timestamp : ℕ
deriving DecidableEq

/-- The service's `cache : Map<string, { data, timestamp }>`, as an
association list. -/
abbrev Cache := List (String × CacheEntry)

/-- `Map.get`: first binding for the key, if any. -/
def cacheGet (c : Cache) (k : String) : Option CacheEntry :=
  (c.find? (fun p => p.1 == k)).map (fun p => p.2)

/-- `Map.set`: replace the binding for the key in place, or append it. -/
def cacheSet : Cache → String → CacheEntry → Cache
  | [], k, e => [(k, e)]
  | (k', e') :: rest, k, e =>
    if k' == k then (k, e) :: rest else (k', e') :: cacheSet rest k e

/-- The cache key built in `executeRequest`:
`` `${endpoint}-${JSON.stringify(options || {})}` ``.  The drain loop calls
`executeRequest(request.endpoint)` with no `options`, so the second component
is always `JSON.stringify({}) = "\x7b\x7d"`. -/
def cacheKey (endpoint : String) : String := endpoint ++ "-" ++ "\x7b\x7d"

/-- `SmartleadAPIError` as thrown by `executeRequest`: `message`, the HTTP
`status`, and the optional `code` set for 401/429. -/
structure SmartleadAPIError where
  message : String
  status : Option ℕ
  code : Option String
deriving DecidableEq

/-- An error rejected to a caller: either a classified `SmartleadAPIError`
thrown after a non-ok HTTP response, or the raw transport-level rejection of
`fetch` itself (which `executeRequest` does not wrap). -/
inductive RequestError where
  | api (e : SmartleadAPIError)
  | transportFailure (msg : String)
deriving DecidableEq

/-- Outcome of one `fetch` + `response.ok` check: `success` is an ok (2xx)
response with its parsed body, `httpFailure` a non-ok response with its
status and statusText, `networkFailure` a transport-level rejection. -/
inductive TransportResult where
  | success (data : Payload)
  | httpFailure (status : ℕ) (statusText : String)
  | networkFailure (msg : String)
deriving DecidableEq

/-- The error-construction block of `executeRequest` for a non-ok response:
a base message with the embedded status, then the 401 and 429 special cases
overriding message and code. -/
def classifyHttpError (status : ℕ) (statusText : String) : SmartleadAPIError :=
  if status = 401 then
    { message := "Invalid API key. Please check your SMARTLEAD_API_KEY."
      status := some 401
      code := some "INVALID_API_KEY" }
  else if status = 429 then
    { message := "Rate limit exceeded. Please wait before making more requests."
      status := some 429
      code := some "RATE_LIMIT_EXCEEDED" }
  else
    { message := "API Error: " ++ toString status ++ " " ++ statusText
      status := some status
      code := none }

deriving instance DecidableEq for Except

/-- Result of one `executeRequest` invocation: the value resolved or the
error thrown, the cache afterwards, and whether the transport (`fetch`) was
actually invoked. -/
structure ExecResult where
  result : Except RequestError Payload
  cache : Cache
  transportCalled : Bool
deriving DecidableEq

/-- The fall-through of `executeRequest` after the cache check misses:
perform the `fetch`; on an ok response cache `{ data, timestamp: Date.now() }`
(the response arrives `lat` ms after dispatch) and return the data; on a
non-ok response throw the classified error; on a transport failure let the
raw rejection propagate.  Failures are never cached. -/
def executeRequestMiss (c : Cache) (now : ℕ) (endpoint : String)
    (transport : String → TransportResult) (lat : ℕ) : ExecResult :=
  match transport endpoint with
  | .success d =>
    { result := .ok d
      cache := cacheSet c (cacheKey endpoint) { data := d, timestamp := now + lat }
      transportCalled := true }
  | .httpFailure s st =>
    { result := .error (.api (classifyHttpError s st))
      cache := c
      transportCalled := true }
  | .networkFailure m =>
    { result := .error (.transportFailure m)
      cache := c
      transportCalled := true }

/-- `executeRequest(endpoint)`, dispatched at time `now`: check the cache
first and return the cached payload if the entry is younger than
`CACHE_DURATION` (lazy expiry, entry not deleted); otherwise fall through to
the transport. -/
def executeRequest (c : Cache) (now : ℕ) (endpoint : String)
    (transport : String → TransportResult) (lat : ℕ) : ExecResult :=
  match cacheGet c (cacheKey endpoint) with
  | some entry =>
    if now - entry.timestamp < CACHE_DURATION then
      { result := .ok entry.data, cache := c, transportCalled := false }
    else
      executeRequestMiss c now endpoint transport lat
  | none => executeRequestMiss c now endpoint transport lat

/-- The queue-owning state touched synchronously by `makeRequest`:
`requestQueue` (we record only each pending item's endpoint; the
resolve/reject callbacks are represented by the positional results of the
drain run) and the `isProcessingQueue` flag. -/
structure GatewayState where
  requestQueue : List String
  isProcessingQueue : Bool
deriving DecidableEq

/-- The synchronous effect of `makeRequest(endpoint)`: push a pending item
onto `requestQueue`, and invoke `processQueue()` (second component `true`)
exactly when `isProcessingQueue` is false.  Note there is no cache consult
here: the cache is only checked inside `executeRequest`, after dequeue. -/
def makeRequest (st : GatewayState) (endpoint : String) : GatewayState × Bool :=
  ({ st with requestQueue := st.requestQueue ++ [endpoint] },
   !st.isProcessingQueue)

/-- The drain loop's mutable state: the cache, `lastRequestTime`, and the
current clock value when the loop iteration begins. -/
structure DrainState where
  cache : Cache
  lastRequestTime : ℕ
  now : ℕ
deriving DecidableEq

/-- One dequeued item's outcome in a drain run: the value resolved or error
rejected to its caller (exactly `executeRequest`'s result, passed through
`request.resolve`/`request.reject` unchanged), the time at which the item was
dequeued and `executeRequest` started, and whether a transport call occurred. -/
structure DrainStep where
  result : Except RequestError Payload
  dispatchTime : ℕ
  transportCalled : Bool
deriving DecidableEq

/-- The time at which a drain-loop iteration beginning in state `st`
dequeues its item: the loop sleeps `RATE_LIMIT_DELAY - (now - lastRequestTime)`
ms when less than `RATE_LIMIT_DELAY` ms have passed since `lastRequestTime`,
so the dequeue happens at `max now (lastRequestTime + RATE_LIMIT_DELAY)`. -/
def drainDispatch (st : DrainState) : ℕ :=
  max st.now (st.lastRequestTime + RATE_LIMIT_DELAY)

/-- The outcome of the drain-loop iteration beginning in state `st` on the
item `e`: `executeRequest`'s result is passed to `request.resolve` /
`request.reject` unchanged. -/
def drainStep (transport : String → TransportResult) (lat : String → ℕ)
    (st : DrainState) (e : String) : DrainStep :=
  let d := drainDispatch st
  let r := executeRequest st.cache d e transport (lat e)
  { result := r.result, dispatchTime := d, transportCalled := r.transportCalled }

/-- The state after the drain-loop iteration beginning in state `st` on the
item `e`: `lastRequestTime := Date.now()` is the completion time — the
dispatch time plus the transport latency `lat e` when the transport was
called, or the dispatch time itself on a cache hit. -/
def drainNext (transport : String → TransportResult) (lat : String → ℕ)
    (st : DrainState) (e : String) : DrainState :=
  let d := drainDispatch st
  let r := executeRequest st.cache d e transport (lat e)
  let fin := if r.transportCalled then d + lat e else d
  { cache := r.cache, lastRequestTime := fin, now := fin }

/-- The `while` loop of `processQueue` over a fixed queue snapshot:
one `drainStep` per queued item, threading the state with `drainNext`.
`transport` and `lat` model the upstream: the response and latency for each
endpoint. -/
def processQueueRun (transport : String → TransportResult) (lat : String → ℕ) :
    DrainState → List String → List DrainStep × DrainState
  | st, [] => ([], st)
  | st, e :: rest =>
    let res := processQueueRun transport lat (drainNext transport lat st e) rest
    (drainStep transport lat st e :: res.1, res.2)

/-- Dequeue/dispatch times of a drain run. -/
def dispatchTimes (steps : List DrainStep) : List ℕ :=
  steps.map (fun s => s.dispatchTime)

/-- Times at which a drain run actually dispatched to the transport (dequeued
items whose cache check missed). -/
def transportDispatchTimes (steps : List DrainStep) : List ℕ :=
  dispatchTimes (steps.filter (fun s => s.transportCalled))

/-- Number of transport calls performed in a drain run. -/
def transportCallCount (steps : List DrainStep) : ℕ :=
  (steps.filter (fun s => s.transportCalled)).length

/-- `getCampaigns(offset, limit)` forwards `makeRequest('/campaigns')`:
its endpoint (hence its request identity) ignores both arguments. -/
def getCampaignsEndpoint (offset limit : ℕ) : String :=
  let _ := offset
  let _ := limit
  "/campaigns"

/-- `getEmailAccounts(offset, limit)` forwards
`` makeRequest(`/email-accounts?offset=${offset}&limit=${limit}`) ``. -/
def getEmailAccountsEndpoint (offset limit : ℕ) : String :=
  "/email-accounts?offset=" ++ toString offset ++ "&limit=" ++ toString limit

/-- `` getCampaignAnalytics(campaignId) `` forwards
`` makeRequest(`/campaigns/${campaignId}/analytics`) ``. -/
def getCampaignAnalyticsEndpoint (campaignId : String) : String :=
  "/campaigns/" ++ campaignId ++ "/analytics"

/-- The specification's error taxonomy. -/
inductive ErrorKind where
  | authInvalid
  | rateLimited
  | serverError (status : ℕ)
  | unknown
deriving DecidableEq

/-- Modelled from the spec: the map from a concrete rejected error to the
spec's taxonomy `{AuthInvalid, RateLimited, ServerError, Unknown}` (§7 of the
spec names the kinds; the source carries them as the `code`/`status` fields
of `SmartleadAPIError`, or as an unwrapped transport rejection for `Unknown`). -/
def RequestError.kind : RequestError → ErrorKind
  | .transportFailure _ => .unknown
  | .api e =>
    if e.code = some "INVALID_API_KEY" then .authInvalid
    else if e.code = some "RATE_LIMIT_EXCEEDED" then .rateLimited
    else
      match e.status with
      | some s => .serverError s
      | none => .unknown

/-!
Part 2: the export pipeline (`ExportModal.handleExport` and the document
builder `generateCampaignExport` with its four sheet constructors).
-/

/-- JavaScript number results where a division by zero can occur. -/
inductive JSNum where
  | num (q : ℚ)
  | nan
  | posInf
  | negInf
deriving DecidableEq

/-- JavaScript `/` on (finite) numbers: `0 / 0` is `NaN`, `x / 0` for
`x ≠ 0` is a signed infinity, otherwise exact division. -/
def jsDiv (a b : ℚ) : JSNum :=
  if b ≠ 0 then .num (a / b)
  else if a = 0 then .nan
  else if 0 < a then .posInf
  else .negInf

/-- JavaScript `*` of a `JSNum` by a (finite, nonzero in our uses) constant. -/
def jsMulQ (j : JSNum) (c : ℚ) : JSNum :=
  match j with
  | .num q => .num (q * c)
  | .nan => .nan
  | .posInf => if 0 < c then .posInf else if c < 0 then .negInf else .nan
  | .negInf => if 0 < c then .negInf else if c < 0 then .posInf else .nan

/-- `Number(x.toFixed(2))`: round to hundredths (half away from the smaller
value, modelling JS rounding on our nonnegative rates). -/
def roundTo2 (q : ℚ) : ℚ := ((round (q * 100) : ℤ) : ℚ) / 100

/-- `x.toFixed(2)` on a finite number: two-decimal rendering. -/
def qToFixed2 (q : ℚ) : String :=
  let n : ℤ := round (q * 100)
  let sign := if n < 0 then "-" else ""
  let m := n.natAbs
  let f := m % 100
  sign ++ toString (m / 100) ++ "." ++ (if f < 10 then "0" else "") ++ toString f

/-- `x.toFixed(2)` on a `JSNum`: `NaN` and infinities render as their names. -/
def jsToFixed2 : JSNum → String
  | .num q => qToFixed2 q
  | .nan => "NaN"
  | .posInf => "Infinity"
  | .negInf => "-Infinity"

/-- `` `${x}%` `` applied to a value that `Number(y.toFixed(2))` produced —
always an integer number of hundredths, so JS prints at most two decimals
and drops trailing zeros. -/
def qHundredthsString (q : ℚ) : String :=
  let n : ℤ := round (q * 100)
  let sign := if n < 0 then "-" else ""
  let m := n.natAbs
  let ip := m / 100
  let f := m % 100
  if f = 0 then sign ++ toString ip
  else if f % 10 = 0 then sign ++ toString ip ++ "." ++ toString (f / 10)
  else sign ++ toString ip ++ "." ++ (if f < 10 then "0" else "") ++ toString f

/-- A spreadsheet cell: a string or a JS number. -/
inductive Cell where
  | str (s : String)
  | jn (j : JSNum)
deriving DecidableEq

/-- Cell holding a finite rational. -/
def cellQ (x : ℚ) : Cell := .jn (.num x)

/-- Cell holding a natural number. -/
def cellN (n : ℕ) : Cell := .jn (.num n)

/-- Cell holding an integer. -/
def cellI (i : ℤ) : Cell := .jn (.num i)

/-- Cell holding a string. -/
def cellS (s : String) : Cell := .str s

/-- A sheet is an ordered 2-D grid of cells (`aoa_to_sheet` input). -/
abbrev Sheet := List (List Cell)

/-- `ClientData` from the excel-export module: `{ id, name, email }`. -/
structure ClientData where
  id : ℤ
  name : String
  email : String
deriving DecidableEq

/-- The fields of a campaign object that the export pipeline reads:
`id`, `name` (`""` models a null/undefined/empty name — all falsy in JS),
`status`, `created_at` (as the epoch-milliseconds value that
`new Date(campaign.created_at)` parses to), and `client_id` (`none` models
a null/absent client). -/
structure CampaignRecord where
  id : ℤ
  name : String
  status : String
  created_at : ℤ
  client_id : Option ℤ
deriving DecidableEq

/-- The fields of a `SmartleadCampaignAnalytics` response that the export
pipeline reads.  The counts are string-typed in the API response and are
consumed as `parseInt(x) || 0`; we model them directly as the parsed
nonnegative values.  `campaign_lead_stats` models `campaign_lead_stats?.total`
(`none` when the nested object is absent). -/
structure AnalyticsRecord where
  id : ℤ
  sent_count : ℕ
  open_count : ℕ
  click_count : ℕ
  reply_count : ℕ
  bounce_count : ℕ
  sequence_count : ℕ
  campaign_lead_stats : Option ℕ
deriving DecidableEq

/-- `getClientName(clientId, clients)` from the excel-export module. -/
def getClientName (clientId : Option ℤ) (clients : List ClientData) : String :=
  match clientId with
  | none => "No Client"
  | some cid =>
    match clients.find? (fun c => c.id == cid) with
    | some c => c.name
    | none => "Client " ++ toString cid

/-- `campaign.name || ` `` `Campaign ${campaign.id}` ``. -/
def campaignDisplayName (c : CampaignRecord) : String :=
  if c.name = "" then "Campaign " ++ toString c.id else c.name

/-- The derived-rate expression of `generateCampaignExport`:
`sentCount > 0 ? (count / sentCount) * 100 : 0`, in exact arithmetic. -/
def qRate (count sent : ℕ) : ℚ :=
  if 0 < sent then (count : ℚ) / (sent : ℚ) * 100 else 0

/-- The same derived-rate expression under JS number semantics (division can
produce `NaN`/infinity when unguarded; the source's ternary guards it). -/
def jsRate (count sent : ℕ) : JSNum :=
  if 0 < sent then jsMulQ (jsDiv (count : ℚ) (sent : ℚ)) 100 else .num 0

/-- One row of `exportData`, the `CampaignExportData` record built by
`generateCampaignExport` for a filtered campaign: the zeroed row when no
analytics record with the campaign's id is present, else the populated row
with derived rates.  Counts are the `parseInt(x) || 0` values. -/
structure CampaignExportData where
  id : ℤ
  name : String
  status : String
  created_at : ℤ
  client_name : String
  sent_count : ℕ
  open_count : ℕ
  click_count : ℕ
  reply_count : ℕ
  bounce_count : ℕ
  sequence_count : ℕ
  total_leads : ℕ
  open_rate : ℚ
  click_rate : ℚ
  reply_rate : ℚ
  bounce_rate : ℚ
deriving DecidableEq

/-- The per-campaign body of the `filteredCampaigns.map` in
`generateCampaignExport` (lines 542–592 of the excel-export source). -/
def exportRow (clients : List ClientData) (campaign : CampaignRecord) :
    Option AnalyticsRecord → CampaignExportData
  | none =>
    { id := campaign.id
      name := campaignDisplayName campaign
      status := campaign.status
      created_at := campaign.created_at
      client_name := getClientName campaign.client_id clients
      sent_count := 0, open_count := 0, click_count := 0
      reply_count := 0, bounce_count := 0, sequence_count := 0
      total_leads := 0
      open_rate := 0, click_rate := 0, reply_rate := 0, bounce_rate := 0 }
  | some a =>
    { id := campaign.id
      name := campaignDisplayName campaign
      status := campaign.status
      created_at := campaign.created_at
      client_name := getClientName campaign.client_id clients
      sent_count := a.sent_count
      open_count := a.open_count
      click_count := a.click_count
      reply_count := a.reply_count
      bounce_count := a.bounce_count
      sequence_count := a.sequence_count
      total_leads := a.campaign_lead_stats.getD 0
      open_rate := qRate a.open_count a.sent_count
      click_rate := qRate a.click_count a.sent_count
      reply_rate := qRate a.reply_count a.sent_count
      bounce_rate := qRate a.bounce_count a.sent_count }

/-- The campaign filter used identically by `ExportModal.handleExport`
(lines 120–128) and by `generateCampaignExport` (lines 530–539): creation
date inside the inclusive `[startDate, endDate]` window, and client id equal
to the selected one (`none` models the `"all"` / null sentinel, which
matches every campaign). -/
def filterExportCampaigns (startDate endDate : ℤ) (selectedClientId : Option ℤ)
    (campaigns : List CampaignRecord) : List CampaignRecord :=
  campaigns.filter (fun c =>
    decide (startDate ≤ c.created_at) && decide (c.created_at ≤ endDate) &&
    (match selectedClientId with
     | none => true
     | some cid => c.client_id == some cid))

/-- `exportData`: one row per filtered campaign, locating the analytics
record by id with `analytics.find(a => a.id === campaign.id)`. -/
def exportData (clients : List ClientData) (analytics : List AnalyticsRecord)
    (filtered : List CampaignRecord) : List CampaignExportData :=
  filtered.map (fun c => exportRow clients c (analytics.find? (fun a => a.id == c.id)))

/-- Days since the Unix epoch of an epoch-milliseconds timestamp. -/
def daysFromEpochMs (t : ℤ) : ℤ := Int.fdiv t 86400000

/-- Gregorian (year, month, day) of a day count since the Unix epoch
(standard civil-from-days algorithm; models the calendar arithmetic inside
`date-fns/format`). -/
def civilFromDays (z0 : ℤ) : ℤ × ℕ × ℕ :=
  let z := z0 + 719468
  let era : ℤ := (if 0 ≤ z then z else z - 146096) / 146097
  let doe : ℕ := (z - era * 146097).toNat
  let yoe : ℕ := (doe - doe / 1460 + doe / 36524 - doe / 146096) / 365
  let y : ℤ := (yoe : ℤ) + era * 400
  let doy : ℕ := doe - (365 * yoe + yoe / 4 - yoe / 100)
  let mp : ℕ := (5 * doy + 2) / 153
  let d : ℕ := doy - (153 * mp + 2) / 5 + 1
  let m : ℕ := if mp < 10 then mp + 3 else mp - 9
  (if m ≤ 2 then y + 1 else y, m, d)

/-- Three-letter English month abbreviation. -/
def monthAbbrev (m : ℕ) : String :=
  ["Jan", "Feb", "Mar", "Apr", "May", "Jun",
   "Jul", "Aug", "Sep", "Oct", "Nov", "Dec"].getD (m - 1) ""

/-- Two-digit zero-padded rendering. -/
def pad2 (n : ℕ) : String := (if n < 10 then "0" else "") ++ toString n

/-- `format(date, "MMM dd, yyyy")` from date-fns. -/
def formatDateMMM (t : ℤ) : String :=
  let c := civilFromDays (daysFromEpochMs t)
  monthAbbrev c.2.1 ++ " " ++ pad2 c.2.2 ++ ", " ++ toString c.1

/-- `format(date, "yyyy-MM-dd")` from date-fns. -/
def formatDateYMD (t : ℤ) : String :=
  let c := civilFromDays (daysFromEpochMs t)
  toString c.1 ++ "-" ++ pad2 c.2.1 ++ "-" ++ pad2 c.2.2

/-- `createDataSheet`: the fixed 16 column headers followed by one row per
`CampaignExportData` item, with the rate columns rounded via
`Number(rate.toFixed(2))`. -/
def createDataSheet (data : List CampaignExportData) : Sheet :=
  [cellS "Campaign ID", cellS "Campaign Name", cellS "Status",
   cellS "Created Date", cellS "Client Name", cellS "Sent Count",
   cellS "Open Count", cellS "Click Count", cellS "Reply Count",
   cellS "Bounce Count", cellS "Open Rate %", cellS "Click Rate %",
   cellS "Reply Rate %", cellS "Bounce Rate %", cellS "Sequence Count",
   cellS "Total Leads"]
  :: data.map (fun item =>
    [cellI item.id, cellS item.name, cellS item.status,
     cellS (formatDateMMM item.created_at), cellS item.client_name,
     cellN item.sent_count, cellN item.open_count, cellN item.click_count,
     cellN item.reply_count, cellN item.bounce_count,
     cellQ (roundTo2 item.open_rate), cellQ (roundTo2 item.click_rate),
     cellQ (roundTo2 item.reply_rate), cellQ (roundTo2 item.bounce_rate),
     cellN item.sequence_count, cellN item.total_leads])

/-- `reduce((sum, c) => sum + f c, 0)` over rows, in `ℚ`. -/
def sumBy (f : CampaignExportData → ℚ) (l : List CampaignExportData) : ℚ :=
  l.foldl (fun s c => s + f c) 0

/-- `reduce((sum, c) => sum + parseInt(f c), 0)` over rows, in `ℕ`. -/
def sumNat (f : CampaignExportData → ℕ) (l : List CampaignExportData) : ℕ :=
  l.foldl (fun s c => s + f c) 0

/-- `[...data].sort((a, b) => b.reply_rate - a.reply_rate)`: a copy of the
rows sorted by descending reply rate (JS `Array.sort` is a stable sort on
the comparator's sign; we model it with insertion sort on the induced
non-strict order). -/
def sortByReplyRateDesc (data : List CampaignExportData) : List CampaignExportData :=
  List.insertionSort (fun a b => b.reply_rate ≤ a.reply_rate) data

/-- `.sort((a, b) => a.reply_rate - b.reply_rate)`: ascending counterpart. -/
def sortByReplyRateAsc (data : List CampaignExportData) : List CampaignExportData :=
  List.insertionSort (fun a b => a.reply_rate ≤ b.reply_rate) data

/-- One entry of the `clientPerformance` array of `createChartsSheet`. -/
structure ClientPerfRow where
  client : String
  avgReplyRate : ℚ
  campaignCount : ℕ
deriving DecidableEq

/-- `clientPerformance` from `createChartsSheet` (lines 708–723): per-client
average reply rate over that client's rows, clients with no rows dropped. -/
def clientPerformance (data : List CampaignExportData) (clients : List ClientData) :
    List ClientPerfRow :=
  (clients.map (fun client =>
    let cc := data.filter (fun c => c.client_name == client.name)
    if cc.length = 0 then
      { client := client.name, avgReplyRate := 0, campaignCount := 0 }
    else
      { client := client.name
        avgReplyRate := roundTo2 (sumBy (fun c => c.reply_rate) cc / (cc.length : ℚ))
        campaignCount := cc.length })).filter (fun c => decide (0 < c.campaignCount))

/-- `data.reduce((sum, c) => sum + f c, 0) / data.length` under JS number
semantics: `NaN` when `data` is empty. -/
def avgMetricCell (f : CampaignExportData → ℚ) (data : List CampaignExportData) : JSNum :=
  jsDiv (sumBy f data) (data.length : ℚ)

/-- `createChartsSheet` (lines 699–796): guide text, the five chart blocks,
each block's rows spread into the grid. -/
def createChartsSheet (data : List CampaignExportData) (clients : List ClientData) : Sheet :=
  let topCampaigns := (sortByReplyRateDesc data).take 10
  let cp := clientPerformance data clients
  [[cellS "📊 EXCEL CHART CREATION GUIDE"],
   [cellS ""],
   [cellS "🎯 HOW TO CREATE CHARTS:"],
   [cellS "1. Select the data range for your chart (including headers)"],
   [cellS "2. Go to Insert > Charts in Excel"],
   [cellS "3. Choose your preferred chart type"],
   [cellS "4. Excel will automatically create the chart"],
   [cellS ""],
   [cellS "📈 CHART 1: TOP CAMPAIGNS BY REPLY RATE (Bar Chart)"],
   [cellS "Select cells A10:C20 below to create a bar chart"],
   [cellS "Campaign Name", cellS "Reply Rate %", cellS "Sent Count"]]
  ++ topCampaigns.map (fun c => [cellS c.name, cellQ c.reply_rate, cellN c.sent_count])
  ++ [[cellS ""],
      [cellS "📊 CHART 2: CLIENT PERFORMANCE COMPARISON (Bar Chart)"],
      [cellS "Select cells A23:C30 below to create a bar chart"],
      [cellS "Client Name", cellS "Average Reply Rate %", cellS "Campaign Count"]]
  ++ cp.map (fun c => [cellS c.client, cellQ c.avgReplyRate, cellN c.campaignCount])
  ++ [[cellS ""],
      [cellS "🥧 CHART 3: CAMPAIGN DISTRIBUTION BY CLIENT (Pie Chart)"],
      [cellS "Select cells A33:B40 below to create a pie chart"],
      [cellS "Client Name", cellS "Campaign Count"]]
  ++ cp.map (fun c => [cellS c.client, cellN c.campaignCount])
  ++ [[cellS ""],
      [cellS "📉 CHART 4: REPLY RATE TREND (Line Chart)"],
      [cellS "Select cells A43:C50 below to create a line chart"],
      [cellS "Campaign Name", cellS "Reply Rate %", cellS "Sent Count"]]
  ++ (data.take 8).map (fun c => [cellS c.name, cellQ c.reply_rate, cellN c.sent_count])
  ++ [[cellS ""],
      [cellS "📊 CHART 5: PERFORMANCE METRICS COMPARISON (Radar Chart)"],
      [cellS "Select cells A53:C60 below to create a radar chart"],
      [cellS "Metric", cellS "Value", cellS "Target"],
      [cellS "Open Rate", Cell.jn (avgMetricCell (fun c => c.open_rate) data), cellN 25],
      [cellS "Click Rate", Cell.jn (avgMetricCell (fun c => c.click_rate) data), cellN 5],
      [cellS "Reply Rate", Cell.jn (avgMetricCell (fun c => c.reply_rate) data), cellN 2],
      [cellS "Bounce Rate", Cell.jn (avgMetricCell (fun c => c.bounce_rate) data), cellN 2]]

/-- `topPerformers` from `createSummarySheet` (lines 829–831). -/
def topPerformers (data : List CampaignExportData) : List CampaignExportData :=
  (sortByReplyRateDesc data).take 5

/-- `lowPerformers` ("CAMPAIGNS NEEDING IMPROVEMENT") from
`createSummarySheet` (lines 833–837): rows with `reply_rate < 2` AND
`parseInt(sent_count) > 10`, ascending by reply rate, first five. -/
def lowPerformers (data : List CampaignExportData) : List CampaignExportData :=
  (sortByReplyRateAsc (data.filter (fun c =>
    decide (c.reply_rate < 2) && decide (10 < c.sent_count)))).take 5

/-- One entry of `clientSummary` in `createSummarySheet`. -/
structure ClientSummaryRow where
  client : String
  campaigns : ℕ
  totalSent : ℕ
  totalReplies : ℕ
  replyRate : ℚ
deriving DecidableEq

/-- `clientSummary` from `createSummarySheet` (lines 840–864). -/
def clientSummary (data : List CampaignExportData) (clients : List ClientData) :
    List ClientSummaryRow :=
  clients.filterMap (fun client =>
    let cc := data.filter (fun c => c.client_name == client.name)
    if cc.length = 0 then none
    else
      let clientSent := sumNat (fun c => c.sent_count) cc
      let clientReplies := sumNat (fun c => c.reply_count) cc
      some { client := client.name
             campaigns := cc.length
             totalSent := clientSent
             totalReplies := clientReplies
             replyRate := roundTo2
               (if 0 < clientSent then (clientReplies : ℚ) / (clientSent : ℚ) * 100 else 0) })

/-- `createSummarySheet` (lines 798–928).  `generatedOn` injects the
`new Date().toLocaleString()` clock read.  The empty-data case degrades to a
single informational cell before any aggregate is computed. -/
def createSummarySheet (generatedOn : String) (data : List CampaignExportData)
    (clients : List ClientData) : Sheet :=
  if data.length = 0 then
    [[cellS "No data available for the selected criteria"]]
  else
    let totalSent := sumNat (fun c => c.sent_count) data
    let totalOpens := sumNat (fun c => c.open_count) data
    let totalClicks := sumNat (fun c => c.click_count) data
    let totalReplies := sumNat (fun c => c.reply_count) data
    let totalBounces := sumNat (fun c => c.bounce_count) data
    let avgOpenRate : ℚ := if 0 < totalSent then (totalOpens : ℚ) / (totalSent : ℚ) * 100 else 0
    let avgClickRate : ℚ := if 0 < totalSent then (totalClicks : ℚ) / (totalSent : ℚ) * 100 else 0
    let avgReplyRate : ℚ := if 0 < totalSent then (totalReplies : ℚ) / (totalSent : ℚ) * 100 else 0
    let avgBounceRate : ℚ := if 0 < totalSent then (totalBounces : ℚ) / (totalSent : ℚ) * 100 else 0
    [[cellS "SMARTLEAD CAMPAIGN EXPORT SUMMARY"],
     [cellS "Generated on:", cellS generatedOn],
     [cellS ""],
     [cellS "EXPORT PERIOD"],
     [cellS "Total Campaigns", cellN data.length],
     [cellS "Total Emails Sent", cellN totalSent],
     [cellS ""],
     [cellS "OVERALL PERFORMANCE"],
     [cellS "Average Open Rate", cellS (qToFixed2 avgOpenRate ++ "%")],
     [cellS "Average Click Rate", cellS (qToFixed2 avgClickRate ++ "%")],
     [cellS "Average Reply Rate", cellS (qToFixed2 avgReplyRate ++ "%")],
     [cellS "Average Bounce Rate", cellS (qToFixed2 avgBounceRate ++ "%")],
     [cellS ""],
     [cellS "CLIENT PERFORMANCE SUMMARY"],
     [cellS "Client Name", cellS "Campaigns", cellS "Total Sent",
      cellS "Total Replies", cellS "Reply Rate %"]]
    ++ (clientSummary data clients).map (fun c =>
      [cellS c.client, cellN c.campaigns, cellN c.totalSent, cellN c.totalReplies,
       cellS (qHundredthsString c.replyRate ++ "%")])
    ++ [[cellS ""],
        [cellS "TOP PERFORMING CAMPAIGNS"],
        [cellS "Campaign Name", cellS "Reply Rate %", cellS "Sent Count", cellS "Client"]]
    ++ (topPerformers data).map (fun c =>
      [cellS c.name, cellS (qToFixed2 c.reply_rate ++ "%"), cellN c.sent_count,
       cellS c.client_name])
    ++ [[cellS ""],
        [cellS "CAMPAIGNS NEEDING IMPROVEMENT"],
        [cellS "Campaign Name", cellS "Reply Rate %", cellS "Sent Count", cellS "Client"]]
    ++ (lowPerformers data).map (fun c =>
      [cellS c.name, cellS (qToFixed2 c.reply_rate ++ "%"), cellN c.sent_count,
       cellS c.client_name])
    ++ [[cellS ""],
        [cellS "ACTIONABLE INSIGHTS"],
        [cellS "1. Focus on campaigns with low reply rates but high send volumes"],
        [cellS "2. Analyze top performers for best practices"],
        [cellS "3. Consider A/B testing subject lines and content"],
        [cellS "4. Monitor bounce rates for deliverability issues"],
        [cellS "5. Optimize email sequences based on response patterns"],
        [cellS "6. Client-specific optimization opportunities identified above"]]

/-- `createQuickChartsSheet` (lines 930–1046): the same chart-ready blocks
without narrative framing; the metric averages are rendered via
`` `${(sum / data.length).toFixed(2)}%` ``. -/
def createQuickChartsSheet (data : List CampaignExportData) (clients : List ClientData) : Sheet :=
  [[cellS "TOP CAMPAIGNS - REPLY RATE"],
   [cellS "Campaign Name", cellS "Reply Rate %", cellS "Sent Count", cellS "Client"]]
  ++ ((sortByReplyRateDesc data).take 10).map (fun c =>
    [cellS c.name, cellQ c.reply_rate, cellN c.sent_count, cellS c.client_name])
  ++ [[cellS ""], [cellS ""],
      [cellS "CLIENT PERFORMANCE"],
      [cellS "Client Name", cellS "Avg Reply Rate %", cellS "Campaign Count",
       cellS "Total Sent"]]
  ++ clients.filterMap (fun client =>
    let cc := data.filter (fun c => c.client_name == client.name)
    if cc.length = 0 then none
    else some [cellS client.name,
               cellQ (roundTo2 (sumBy (fun c => c.reply_rate) cc / (cc.length : ℚ))),
               cellN cc.length,
               cellN (sumNat (fun c => c.sent_count) cc)])
  ++ [[cellS ""], [cellS ""],
      [cellS "CAMPAIGN DISTRIBUTION BY CLIENT"],
      [cellS "Client Name", cellS "Campaign Count"]]
  ++ clients.filterMap (fun client =>
    let cc := data.filter (fun c => c.client_name == client.name)
    if 0 < cc.length then some [cellS client.name, cellN cc.length] else none)
  ++ [[cellS ""], [cellS ""],
      [cellS "PERFORMANCE METRICS"],
      [cellS "Metric", cellS "Current Value", cellS "Industry Average"],
      [cellS "Open Rate",
       cellS (jsToFixed2 (avgMetricCell (fun c => c.open_rate) data) ++ "%"), cellS "25%"],
      [cellS "Click Rate",
       cellS (jsToFixed2 (avgMetricCell (fun c => c.click_rate) data) ++ "%"), cellS "5%"],
      [cellS "Reply Rate",
       cellS (jsToFixed2 (avgMetricCell (fun c => c.reply_rate) data) ++ "%"), cellS "2%"],
      [cellS "Bounce Rate",
       cellS (jsToFixed2 (avgMetricCell (fun c => c.bounce_rate) data) ++ "%"), cellS "2%"]]

/-- The value returned by `generateCampaignExport` together with the built
workbook: the four sheets in appended order (raw data, charts, summary,
quick charts) and the derived filename.  The pure model cannot throw, so
`success` is always true; the source's catch branch is unreachable here. -/
structure ExportResult where
  success : Bool
  dataSheet : Sheet
  chartsSheet : Sheet
  summarySheet : Sheet
  quickChartsSheet : Sheet
  filename : String
deriving DecidableEq

/-- `generateCampaignExport` (lines 520–632): re-filter the campaigns with
the same predicate as the modal, build `exportData`, the four sheets, and
the deterministic filename. -/
def generateCampaignExport (campaigns : List CampaignRecord)
    (analytics : List AnalyticsRecord) (clients : List ClientData)
    (startDate endDate : ℤ) (selectedClientId : Option ℤ)
    (generatedOn : String) : ExportResult :=
  let filtered := filterExportCampaigns startDate endDate selectedClientId campaigns
  let ed := exportData clients analytics filtered
  let clientStr :=
    match selectedClientId with
    | some cid =>
      match clients.find? (fun c => c.id == cid) with
      | some c => c.name
      | none => "Unknown"
    | none => "All Clients"
  { success := true
    dataSheet := createDataSheet ed
    chartsSheet := createChartsSheet ed clients
    summarySheet := createSummarySheet generatedOn ed clients
    quickChartsSheet := createQuickChartsSheet ed clients
    filename := "Smartlead_Campaigns_" ++ clientStr ++ "_" ++ formatDateYMD startDate
      ++ "_to_" ++ formatDateYMD endDate ++ ".xlsx" }

/-- The analytics fan-out of `handleExport` (lines 137–160): one attempt per
filtered campaign, in list order; `outcome c = none` models a fetch whose
promise rejected and whose `catch` returned the `null` sentinel, `some a` a
fetch that resolved with `a`.  `Promise.all` settles with one slot per
campaign, so the result list has exactly the filtered list's length. -/
def fetchAnalyticsResults (outcome : CampaignRecord → Option AnalyticsRecord)
    (filtered : List CampaignRecord) : List (Option AnalyticsRecord) :=
  filtered.map outcome

/-- `analyticsResults.filter(Boolean)` (line 161): drop the `null`
sentinels, keeping successful analytics in order. -/
def aggregatedAnalytics (outcome : CampaignRecord → Option AnalyticsRecord)
    (filtered : List CampaignRecord) : List AnalyticsRecord :=
  (fetchAnalyticsResults outcome filtered).reduceOption

/-- `Math.round((i / L) * 80)` in exact rational arithmetic for `i ≤ L`,
`L > 0`: `⌊(80 i / L) + 1/2⌋ = (160 i + L) / (2 L)` in natural division. -/
def jsRound80 (i L : ℕ) : ℕ := (160 * i + L) / (2 * L)

/-- The progress value emitted when the fetch for the campaign at index `i`
(0-based, of `L`) resolves: `5 + Math.round((index / L) * 80)` (line 146). -/
def fetchProgressValue (L i : ℕ) : ℕ := 5 + jsRound80 i L

/-- The sequence of values written to the progress channel over one export
run of `handleExport`, in emission order: `0` (line 113) and `5` (line 117)
at batch start, one value per successfully resolved per-campaign fetch
(`ok i` says whether the fetch for index `i` resolved; a rejected fetch'
catch branch emits nothing), `85` at document-assembly start (line 163) and
`100` at completion (line 175), and then the teardown resets to `0`: the
success branch's 1500 ms timeout schedules `setExportProgress(0)`
(line 187) and the `finally` block runs `setExportProgress(0)`
unconditionally (line 201), both within the same invocation's cleanup.
Fetches settle in index order because all analytics requests funnel through
the gateway's FIFO drain loop, which resolves each caller before
dispatching the next item. -/
def exportProgressTrace (L : ℕ) (ok : ℕ → Bool) : List ℕ :=
  [0, 5] ++ ((List.range L).filter ok).map (fetchProgressValue L) ++ [85, 100, 0, 0]

/-!
Theorems.  Each claim `Cn` is settled by the theorem `claim_Cn` (with a
`claim_Cn_witness` instantiation when it carries hypotheses, and a
`claim_Cn_counterexample` when the claim as stated fails on the code).
-/

/-- `Map.set` followed by `Map.get` on the same key yields the new entry. -/
theorem cacheGet_cacheSet (c : Cache) (k : String) (e : CacheEntry) :
    cacheGet (cacheSet c k e) k = some e := by
  induction c with
  | nil => simp [cacheSet, cacheGet]
  | cons hd tl ih =>
    obtain ⟨k', e'⟩ := hd
    by_cases h : k' == k
    · simp [cacheSet, h, cacheGet]
    · simp only [cacheSet, h, Bool.false_eq_true, if_false]
      simpa [cacheGet, List.find?, h] using ih

/-- C1 (counterexample): even with a fresh cache entry for the identity —
the first conjunct shows the entry would satisfy the cache check, so no
transport call would occur at dispatch — `makeRequest` still appends the
call to the pending queue and starts the drain loop, contradicting the
claim that a cache hit "leaves the pending-request queue untouched" and
does not start the drain loop. -/
theorem claim_C1_counterexample :
    ((100 : ℕ) - 0 < CACHE_DURATION ∧
      (executeRequest (cacheSet [] (cacheKey "/campaigns") ⟨42, 0⟩) 100 "/campaigns"
        (fun _ => .success 7) 50).transportCalled = false) ∧
    (makeRequest ⟨[], false⟩ "/campaigns").1.requestQueue = ["/campaigns"] ∧
    (makeRequest ⟨[], false⟩ "/campaigns").2 = true := by
  decide

/-- C1 (amended): a call whose identity has a cache entry younger than the
TTL is still appended to the pending queue by `makeRequest`, and the drain
loop is started exactly when it is not already running; the cached payload
is only returned when the item is dequeued and `executeRequest` runs, at
which point it resolves with the cached payload, leaves the cache unchanged,
and performs no transport call. -/
theorem claim_C1_amended (st : GatewayState) (c : Cache) (e : String) (v : Payload)
    (ts now lat : ℕ) (tr : String → TransportResult)
    (hfresh : now - ts < CACHE_DURATION) :
    (makeRequest st e).1.requestQueue = st.requestQueue ++ [e] ∧
    (makeRequest st e).2 = !st.isProcessingQueue ∧
    executeRequest (cacheSet c (cacheKey e) ⟨v, ts⟩) now e tr lat =
      { result := .ok v, cache := cacheSet c (cacheKey e) ⟨v, ts⟩,
        transportCalled := false } := by
  refine ⟨rfl, rfl, ?_⟩
  unfold executeRequest
  rw [cacheGet_cacheSet]
  simp [hfresh]

/-- C1 (amended), instantiated: one idle-state call on `/campaigns` with a
fresh entry stored at time 0 and dequeued at time 100. -/
theorem claim_C1_amended_witness :
    (makeRequest ⟨["/q"], false⟩ "/campaigns").1.requestQueue = ["/q"] ++ ["/campaigns"] ∧
    (makeRequest ⟨["/q"], false⟩ "/campaigns").2 = !false ∧
    executeRequest (cacheSet [] (cacheKey "/campaigns") ⟨42, 0⟩) 100 "/campaigns"
      (fun _ => .networkFailure "net down") 5 =
      { result := .ok 42, cache := cacheSet [] (cacheKey "/campaigns") ⟨42, 0⟩,
        transportCalled := false } :=
  claim_C1_amended ⟨["/q"], false⟩ [] "/campaigns" 42 0 100 5
    (fun _ => .networkFailure "net down") (by decide)

/-- C9 (counterexample): two `getCampaigns` calls with different `offset`
and `limit` arguments produce the identical request identity, because the
wrapper ignores both parameters. -/
theorem claim_C9_counterexample :
    getCampaignsEndpoint 0 100 = getCampaignsEndpoint 50 10 ∧
    ¬((0 : ℕ) = 50 ∧ (100 : ℕ) = 10) := by
  decide

/-- C9 (amended): every Domain API wrapper builds its request identity
deterministically as an endpoint string and forwards it to the gateway with
no other transformation; `getEmailAccounts` embeds its `offset` and `limit`
query parameters (so the argument pairs (0, 100) and (50, 10) produce
different identities), but `getCampaigns` ignores its `offset` and `limit`
arguments entirely, producing the identity `/campaigns` for every call. -/
theorem claim_C9_amended :
    (∀ o l : ℕ, getCampaignsEndpoint o l = "/campaigns") ∧
    (∀ o l : ℕ, getEmailAccountsEndpoint o l =
      "/email-accounts?offset=" ++ toString o ++ "&limit=" ++ toString l) ∧
    getEmailAccountsEndpoint 0 100 ≠ getEmailAccountsEndpoint 50 10 ∧
    (∀ cid : String,
      getCampaignAnalyticsEndpoint cid = "/campaigns/" ++ cid ++ "/analytics") :=
  ⟨fun _ _ => rfl, fun _ _ => rfl, by decide, fun _ => rfl⟩

/-- The dequeue time of an iteration is at least `RATE_LIMIT_DELAY` ms after
the `lastRequestTime` the iteration started from. -/
theorem lastRequestTime_le_drainDispatch (st : DrainState) :
    st.lastRequestTime + RATE_LIMIT_DELAY ≤ drainDispatch st :=
  le_max_right _ _

/-- The completion time recorded by an iteration is at least its dequeue
time. -/
theorem drainDispatch_le_drainNext (tr : String → TransportResult)
    (lat : String → ℕ) (st : DrainState) (e : String) :
    drainDispatch st ≤ (drainNext tr lat st e).lastRequestTime := by
  unfold drainNext
  dsimp only
  split <;> omega

/-- Every dequeue time in a drain run is at least `RATE_LIMIT_DELAY` ms
after the `lastRequestTime` of the state the run started in. -/
theorem drainRun_dispatch_lb (tr : String → TransportResult) (lat : String → ℕ) :
    ∀ (queue : List String) (st : DrainState),
      ∀ t ∈ dispatchTimes (processQueueRun tr lat st queue).1,
        st.lastRequestTime + RATE_LIMIT_DELAY ≤ t := by
  intro queue
  induction queue with
  | nil => intro st t ht; simp [processQueueRun, dispatchTimes] at ht
  | cons e rest ih =>
    intro st t ht
    simp only [processQueueRun, dispatchTimes, List.map_cons, List.mem_cons] at ht
    rcases ht with h | h
    · rw [h]
      exact lastRequestTime_le_drainDispatch st
    · have h1 := ih (drainNext tr lat st e) t h
      have h2 := drainDispatch_le_drainNext tr lat st e
      have h3 := lastRequestTime_le_drainDispatch st
      omega

/-- Consecutive dequeue times in a drain run are at least `RATE_LIMIT_DELAY`
ms apart (pairwise, hence also along any subsequence). -/
theorem drainRun_dispatch_pairwise (tr : String → TransportResult) (lat : String → ℕ) :
    ∀ (queue : List String) (st : DrainState),
      List.Pairwise (fun a b => a + RATE_LIMIT_DELAY ≤ b)
        (dispatchTimes (processQueueRun tr lat st queue).1) := by
  intro queue
  induction queue with
  | nil => intro st; simp [processQueueRun, dispatchTimes]
  | cons e rest ih =>
    intro st
    simp only [processQueueRun, dispatchTimes, List.map_cons]
    refine List.Pairwise.cons ?_ (ih (drainNext tr lat st e))
    intro t ht
    have h1 := drainRun_dispatch_lb tr lat rest (drainNext tr lat st e) t ht
    have h2 := drainDispatch_le_drainNext tr lat st e
    have hd : (drainStep tr lat st e).dispatchTime = drainDispatch st := rfl
    rw [hd]
    omega

/-- C5: over any drain of the queue, the times of consecutive dispatches to
the transport are at least the configured minimum inter-request delay
(`RATE_LIMIT_DELAY = 200` ms) apart, for every pair — regardless of the
queue's length, the transport's responses, or its latencies.  (Dequeues
whose cache check hits perform no transport call; the transport dispatch
times are the dequeue times of the remaining items, and the bound holds
pairwise, so it holds between the i-th and (i+1)-th transport dispatch.) -/
theorem claim_C5 (tr : String → TransportResult) (lat : String → ℕ)
    (st : DrainState) (queue : List String) :
    List.Pairwise (fun a b => a + RATE_LIMIT_DELAY ≤ b)
      (transportDispatchTimes (processQueueRun tr lat st queue).1) := by
  have hall := drainRun_dispatch_pairwise tr lat queue st
  have hsub : transportDispatchTimes (processQueueRun tr lat st queue).1
      |>.Sublist (dispatchTimes (processQueueRun tr lat st queue).1) := by
    unfold transportDispatchTimes dispatchTimes
    exact List.Sublist.map _ (List.filter_sublist _)
  exact hall.sublist hsub

/-- C3: the error rejected for a failing upstream call is classified exactly
once, inside `executeRequest` at the gateway boundary: HTTP 401 yields the
`INVALID_API_KEY` error (spec kind AuthInvalid) whose message references the
credential misconfiguration ("Invalid API key. Please check your
SMARTLEAD_API_KEY."); HTTP 429 yields `RATE_LIMIT_EXCEEDED` (RateLimited);
any other non-ok status yields the uncoded error with the status embedded
(ServerError s); a transport-level failure propagates as the raw unwrapped
rejection (Unknown).  The final conjunct shows the drain loop delivers
`executeRequest`'s result to the caller unchanged — no reinterpretation. -/
theorem claim_C3 (c : Cache) (now lat : ℕ) (e st msg : String) (s : ℕ)
    (hmiss : cacheGet c (cacheKey e) = none)
    (h401 : s ≠ 401) (h429 : s ≠ 429) :
    ((executeRequest c now e (fun _ => .httpFailure 401 st) lat).result =
      .error (.api ⟨"Invalid API key. Please check your SMARTLEAD_API_KEY.",
        some 401, some "INVALID_API_KEY"⟩) ∧
     (RequestError.api (classifyHttpError 401 st)).kind = .authInvalid) ∧
    ((executeRequest c now e (fun _ => .httpFailure 429 st) lat).result =
      .error (.api ⟨"Rate limit exceeded. Please wait before making more requests.",
        some 429, some "RATE_LIMIT_EXCEEDED"⟩) ∧
     (RequestError.api (classifyHttpError 429 st)).kind = .rateLimited) ∧
    ((executeRequest c now e (fun _ => .httpFailure s st) lat).result =
      .error (.api ⟨"API Error: " ++ toString s ++ " " ++ st, some s, none⟩) ∧
     (RequestError.api (classifyHttpError s st)).kind = .serverError s) ∧
    ((executeRequest c now e (fun _ => .networkFailure msg) lat).result =
      .error (.transportFailure msg) ∧
     (RequestError.transportFailure msg).kind = .unknown) ∧
    (∀ tr : String → TransportResult,
      (processQueueRun tr (fun _ => lat) ⟨c, 0, 0⟩ [e]).1.map (fun stp => stp.result) =
        [(executeRequest c (drainDispatch ⟨c, 0, 0⟩) e tr lat).result]) := by
  refine ⟨⟨?_, ?_⟩, ⟨?_, ?_⟩, ⟨?_, ?_⟩, ⟨?_, ?_⟩, ?_⟩
  · simp [executeRequest, hmiss, executeRequestMiss, classifyHttpError]
  · simp [RequestError.kind, classifyHttpError]
  · simp [executeRequest, hmiss, executeRequestMiss, classifyHttpError]
  · simp [RequestError.kind, classifyHttpError]
  · simp [executeRequest, hmiss, executeRequestMiss, classifyHttpError, h401, h429]
  · simp [RequestError.kind, classifyHttpError, h401, h429]
  · simp [executeRequest, hmiss, executeRequestMiss]
  · simp [RequestError.kind]
  · intro tr
    simp [processQueueRun, drainStep]

/-- C3, instantiated at a miss on `/x` with a 500 "Server Error" status and
a network failure. -/
theorem claim_C3_witness :
    ((executeRequest [] 0 "/x" (fun _ => .httpFailure 401 "Unauthorized") 10).result =
      .error (.api ⟨"Invalid API key. Please check your SMARTLEAD_API_KEY.",
        some 401, some "INVALID_API_KEY"⟩) ∧
     (RequestError.api (classifyHttpError 401 "Unauthorized")).kind = .authInvalid) ∧
    ((executeRequest [] 0 "/x" (fun _ => .httpFailure 429 "Unauthorized") 10).result =
      .error (.api ⟨"Rate limit exceeded. Please wait before making more requests.",
        some 429, some "RATE_LIMIT_EXCEEDED"⟩) ∧
     (RequestError.api (classifyHttpError 429 "Unauthorized")).kind = .rateLimited) ∧
    ((executeRequest [] 0 "/x" (fun _ => .httpFailure 500 "Unauthorized") 10).result =
      .error (.api ⟨"API Error: " ++ toString 500 ++ " " ++ "Unauthorized",
        some 500, none⟩) ∧
     (RequestError.api (classifyHttpError 500 "Unauthorized")).kind = .serverError 500) ∧
    ((executeRequest [] 0 "/x" (fun _ => .networkFailure "socket hang up") 10).result =
      .error (.transportFailure "socket hang up") ∧
     (RequestError.transportFailure "socket hang up").kind = .unknown) := by
  have h := claim_C3 [] 0 10 "/x" "Unauthorized" "socket hang up" 500
    (by decide) (by decide) (by decide)
  exact ⟨h.1, h.2.1, h.2.2.1, h.2.2.2.1⟩

/-- C6: cache and identity idempotence.  (1) After a success stored the
payload `v` for identity `e`, a later `executeRequest` for the identical
endpoint whose dispatch time falls within the TTL window resolves with the
same `v`, performs no transport call, and leaves the cache as it was.
(2) Once the TTL has elapsed the entry is treated as absent and a fresh
transport call is made.  (3) Concretely, draining twelve queued requests for
the same identity (enqueued before the first completed) from an empty cache
performs exactly one transport call, and all twelve callers resolve with the
same payload. -/
theorem claim_C6 (c : Cache) (e : String) (v : Payload) (ts now stale lat : ℕ)
    (tr : String → TransportResult)
    (hfresh : now - ts < CACHE_DURATION) (hstale : CACHE_DURATION ≤ stale - ts) :
    executeRequest (cacheSet c (cacheKey e) ⟨v, ts⟩) now e tr lat =
      { result := .ok v, cache := cacheSet c (cacheKey e) ⟨v, ts⟩,
        transportCalled := false } ∧
    (executeRequest (cacheSet c (cacheKey e) ⟨v, ts⟩) stale e tr lat).transportCalled
      = true ∧
    transportCallCount (processQueueRun (fun _ => .success 42) (fun _ => 100)
      ⟨[], 0, 0⟩ (List.replicate 12 "/campaigns/7/analytics")).1 = 1 ∧
    (processQueueRun (fun _ => .success 42) (fun _ => 100)
        ⟨[], 0, 0⟩ (List.replicate 12 "/campaigns/7/analytics")).1.map
        (fun s => s.result) =
      List.replicate 12 (.ok 42) := by
  refine ⟨?_, ?_, by decide, by decide⟩
  · unfold executeRequest
    rw [cacheGet_cacheSet]
    simp [hfresh]
  · unfold executeRequest
    rw [cacheGet_cacheSet]
    have hlt : ¬ (stale - ts < CACHE_DURATION) := not_lt.mpr hstale
    simp only [hlt, if_false]
    unfold executeRequestMiss
    cases tr e <;> rfl

/-- C6, instantiated: payload 5 stored at time 0, re-requested fresh at time
10 and stale at time 300000. -/
theorem claim_C6_witness :
    executeRequest (cacheSet [] (cacheKey "/client") ⟨5, 0⟩) 10 "/client"
      (fun _ => .networkFailure "m") 0 =
      { result := .ok 5, cache := cacheSet [] (cacheKey "/client") ⟨5, 0⟩,
        transportCalled := false } ∧
    (executeRequest (cacheSet [] (cacheKey "/client") ⟨5, 0⟩) 300000 "/client"
      (fun _ => .networkFailure "m") 0).transportCalled = true ∧
    transportCallCount (processQueueRun (fun _ => .success 42) (fun _ => 100)
      ⟨[], 0, 0⟩ (List.replicate 12 "/campaigns/7/analytics")).1 = 1 ∧
    (processQueueRun (fun _ => .success 42) (fun _ => 100)
        ⟨[], 0, 0⟩ (List.replicate 12 "/campaigns/7/analytics")).1.map
        (fun s => s.result) =
      List.replicate 12 (.ok 42) :=
  claim_C6 [] "/client" 5 0 10 300000 0 (fun _ => .networkFailure "m")
    (by decide) (by decide)

/-- Dropping the `none` sentinels from a mapped list keeps exactly
`length − (number of `none` outcomes)` elements. -/
theorem length_reduceOption_map {α β : Type} (f : α → Option β) (l : List α) :
    ((l.map f).reduceOption).length
      = l.length - (l.filter (fun c => (f c).isNone)).length := by
  induction l with
  | nil => rfl
  | cons hd tl ih =>
    have hle : (tl.filter (fun c => (f c).isNone)).length ≤ tl.length :=
      List.length_filter_le _ _
    cases hf : f hd <;>
      simp [List.reduceOption, List.filterMap_cons, hf, List.filter_cons] at ih ⊢ <;>
      omega

/-- The export filter is idempotent: re-filtering an already filtered
campaign list with the same criteria changes nothing. -/
theorem filterExportCampaigns_idem (sd ed : ℤ) (cid : Option ℤ)
    (cs : List CampaignRecord) :
    filterExportCampaigns sd ed cid (filterExportCampaigns sd ed cid cs)
      = filterExportCampaigns sd ed cid cs := by
  unfold filterExportCampaigns
  rw [List.filter_filter]
  simp

/-- C2: for a batch of `M` filtered campaigns of which `K` analytics fetches
fail, the export completes: each failed fetch becomes a `null` sentinel
(modelled by `outcome c = none`), the `Promise.all` join yields exactly one
settled slot per campaign (`M` results), the raw-data sheet has exactly `M`
campaign rows (plus the header row), and exactly `M − K` analytics records
survive `filter(Boolean)` into the aggregated collection handed to
`generateCampaignExport`. -/
theorem claim_C2 (campaigns : List CampaignRecord) (clients : List ClientData)
    (outcome : CampaignRecord → Option AnalyticsRecord)
    (startDate endDate : ℤ) (cid : Option ℤ) (generatedOn : String) :
    (fetchAnalyticsResults outcome
        (filterExportCampaigns startDate endDate cid campaigns)).length
      = (filterExportCampaigns startDate endDate cid campaigns).length ∧
    (aggregatedAnalytics outcome
        (filterExportCampaigns startDate endDate cid campaigns)).length
      = (filterExportCampaigns startDate endDate cid campaigns).length
        - ((filterExportCampaigns startDate endDate cid campaigns).filter
            (fun c => (outcome c).isNone)).length ∧
    (generateCampaignExport (filterExportCampaigns startDate endDate cid campaigns)
        (aggregatedAnalytics outcome
          (filterExportCampaigns startDate endDate cid campaigns))
        clients startDate endDate cid generatedOn).dataSheet.length
      = (filterExportCampaigns startDate endDate cid campaigns).length + 1 := by
  refine ⟨by simp [fetchAnalyticsResults], ?_, ?_⟩
  · exact length_reduceOption_map outcome _
  · simp [generateCampaignExport, createDataSheet, exportData,
      filterExportCampaigns_idem, Nat.add_comm]

/-- The per-fetch progress value for an index below the batch size stays at
or below the 85 checkpoint: `Math.round((i / L) * 80) ≤ 80` for `i < L`. -/
theorem jsRound80_le_80 {i L : ℕ} (h : i < L) : jsRound80 i L ≤ 80 := by
  unfold jsRound80
  have h2L : 0 < 2 * L := by omega
  have hlt : (160 * i + L) / (2 * L) < 81 :=
    (Nat.div_lt_iff_lt_mul h2L).mpr (by omega)
  omega

/-- `Math.round((i / L) * 80)` is monotone in the index. -/
theorem jsRound80_mono {i j : ℕ} (L : ℕ) (h : i ≤ j) :
    jsRound80 i L ≤ jsRound80 j L :=
  Nat.div_le_div_right (by omega)

/-- C4 (counterexample): the run's emission sequence does not stay
monotonically non-decreasing: after `100` at completion, the `finally`
block (line 201) and the success branch's timeout (line 187) reset the
progress channel to `0` within the same export run, so the sequence ends
`100, 0, 0` — shown here at the concrete input of an empty batch. -/
theorem claim_C4_counterexample :
    exportProgressTrace 0 (fun _ => true) = [0, 5, 85, 100, 0, 0] ∧
    ¬ List.Pairwise (fun a b => a ≤ b) (exportProgressTrace 0 (fun _ => true)) := by
  decide

/-- C4 (amended): over a single export run the emission sequence on the
progress channel is the monotone ramp `0`, `5`, one value in the `[5, 85]`
band per settled successful fetch (in index order, since all fetches funnel
through the gateway's serial FIFO drain; a failed fetch's catch branch
emits nothing), `85` at document-assembly start and `100` at completion —
followed by the two teardown resets to `0` (the `finally` block and the
success branch's timeout), which are the only decreasing steps.  Every
emitted value is an integer percentage in `[0, 100]`, and the sequence up
to and including the `100` completion checkpoint is monotonically
non-decreasing. -/
theorem claim_C4_amended (L : ℕ) (ok : ℕ → Bool) :
    exportProgressTrace L ok =
      ([0, 5] ++ ((List.range L).filter ok).map (fetchProgressValue L) ++ [85, 100])
        ++ [0, 0] ∧
    List.Pairwise (fun a b => a ≤ b)
      ([0, 5] ++ ((List.range L).filter ok).map (fetchProgressValue L) ++ [85, 100]) ∧
    (∀ v ∈ exportProgressTrace L ok, v ≤ 100) ∧
    (∀ v ∈ ((List.range L).filter ok).map (fetchProgressValue L),
      5 ≤ v ∧ v ≤ 85) := by
  have hmem : ∀ v ∈ ((List.range L).filter ok).map (fetchProgressValue L),
      5 ≤ v ∧ v ≤ 85 := by
    intro v hv
    rw [List.mem_map] at hv
    obtain ⟨i, hi, rfl⟩ := hv
    have hiL : i < L := List.mem_range.mp (List.mem_of_mem_filter hi)
    have h80 := jsRound80_le_80 hiL
    unfold fetchProgressValue
    omega
  have hmid : List.Pairwise (fun a b => a ≤ b)
      (((List.range L).filter ok).map (fetchProgressValue L)) := by
    rw [List.pairwise_map]
    have hp : List.Pairwise (· < ·) ((List.range L).filter ok) :=
      (List.pairwise_lt_range L).filter ok
    refine hp.imp ?_
    intro a b hab
    have := jsRound80_mono L (le_of_lt hab)
    unfold fetchProgressValue
    omega
  refine ⟨?_, ?_, ?_, hmem⟩
  · unfold exportProgressTrace
    simp [List.append_assoc]
  · rw [List.pairwise_append]
    refine ⟨?_, by decide, ?_⟩
    · rw [List.pairwise_append]
      refine ⟨by decide, hmid, ?_⟩
      intro a ha b hb
      have ha5 : a = 0 ∨ a = 5 := by simpa using ha
      have h5 := (hmem b hb).1
      rcases ha5 with rfl | rfl <;> omega
    · intro a ha b hb
      have hb100 : b = 85 ∨ b = 100 := by simpa using hb
      rcases List.mem_append.mp ha with h | h
      · have ha5 : a = 0 ∨ a = 5 := by simpa using h
        rcases ha5 with rfl | rfl <;> rcases hb100 with rfl | rfl <;> omega
      · have h85 := (hmem a h).2
        rcases hb100 with rfl | rfl <;> omega
  · intro v hv
    unfold exportProgressTrace at hv
    rcases List.mem_append.mp hv with h | h
    · rcases List.mem_append.mp h with h2 | h2
      · have hv05 : v = 0 ∨ v = 5 := by simpa using h2
        rcases hv05 with rfl | rfl <;> omega
      · have := (hmem v h2).2
        omega
    · have hv100 : v = 85 ∨ v = 100 ∨ v = 0 := by simpa using h
      rcases hv100 with rfl | rfl | rfl <;> omega

/-- C7: every derived rate field of an exported campaign row equals
`count / sentCount * 100` with the `sentCount > 0` guard, and the guarded JS
expression always produces a finite number — never `NaN` or an infinity —
equal to the exact rational value (first conjunct).  For a campaign whose
`sent_count` is 0, all four derived rates are exactly 0.  In particular a
campaign with `sent_count = 100`, `open_count = 25`, `reply_count = 5` gets
`open_rate = 25` and `reply_rate = 5`. -/
theorem claim_C7 (clients : List ClientData) (camp : CampaignRecord)
    (a b : AnalyticsRecord) (hb : b.sent_count = 0) :
    (∀ count sent : ℕ, jsRate count sent = .num (qRate count sent)) ∧
    ((exportRow clients camp (some a)).open_rate = qRate a.open_count a.sent_count ∧
     (exportRow clients camp (some a)).click_rate = qRate a.click_count a.sent_count ∧
     (exportRow clients camp (some a)).reply_rate = qRate a.reply_count a.sent_count ∧
     (exportRow clients camp (some a)).bounce_rate = qRate a.bounce_count a.sent_count) ∧
    ((exportRow clients camp (some b)).open_rate = 0 ∧
     (exportRow clients camp (some b)).click_rate = 0 ∧
     (exportRow clients camp (some b)).reply_rate = 0 ∧
     (exportRow clients camp (some b)).bounce_rate = 0) ∧
    (qRate 25 100 = 25 ∧ qRate 5 100 = 5) := by
  refine ⟨?_, ⟨rfl, rfl, rfl, rfl⟩, ?_, by norm_num [qRate], by norm_num [qRate]⟩
  · intro count sent
    by_cases h : 0 < sent
    · have hs : ((sent : ℚ)) ≠ 0 := Nat.cast_ne_zero.mpr (by omega)
      simp [jsRate, qRate, jsDiv, jsMulQ, h, hs]
    · simp [jsRate, qRate, h]
  · simp [exportRow, qRate, hb]

/-- C7, instantiated at the spec's scenario (100 sent, 25 opens, 5 replies)
and at a zero-sent campaign. -/
theorem claim_C7_witness :
    jsRate 25 100 = .num (qRate 25 100) ∧
    (exportRow [] ⟨7, "C", "ACTIVE", 0, none⟩
      (some ⟨7, 100, 25, 0, 5, 0, 1, none⟩)).open_rate = qRate 25 100 ∧
    (exportRow [] ⟨7, "C", "ACTIVE", 0, none⟩
      (some ⟨7, 100, 25, 0, 5, 0, 1, none⟩)).reply_rate = qRate 5 100 ∧
    (exportRow [] ⟨7, "C", "ACTIVE", 0, none⟩
      (some ⟨8, 0, 3, 4, 5, 6, 1, none⟩)).open_rate = 0 ∧
    qRate 25 100 = 25 ∧ qRate 5 100 = 5 := by
  have h := claim_C7 [] ⟨7, "C", "ACTIVE", 0, none⟩
    ⟨7, 100, 25, 0, 5, 0, 1, none⟩ ⟨8, 0, 3, 4, 5, 6, 1, none⟩ rfl
  exact ⟨h.1 25 100, h.2.1.1, h.2.1.2.2.1, h.2.2.1.1, h.2.2.2.1, h.2.2.2.2⟩

/-- C8 (counterexample): a campaign row with 100 sends (well above the
10-send floor) whose reply rate 3% is the lowest — indeed the only — reply
rate among campaigns with more than 10 sends, yet the "needing improvement"
list is empty, because the source additionally requires `reply_rate < 2`.
This contradicts the claim that the list "contains the (up to five) lowest
reply-rate campaigns among those with more than 10 sends". -/
theorem claim_C8_counterexample :
    10 < (exportRow [] ⟨1, "Camp A", "ACTIVE", 0, none⟩
      (some ⟨1, 100, 0, 0, 3, 0, 0, none⟩)).sent_count ∧
    (exportRow [] ⟨1, "Camp A", "ACTIVE", 0, none⟩
      (some ⟨1, 100, 0, 0, 3, 0, 0, none⟩)).reply_rate = 3 ∧
    lowPerformers [exportRow [] ⟨1, "Camp A", "ACTIVE", 0, none⟩
      (some ⟨1, 100, 0, 0, 3, 0, 0, none⟩)] = [] := by
  have hrate : (exportRow [] ⟨1, "Camp A", "ACTIVE", 0, none⟩
      (some ⟨1, 100, 0, 0, 3, 0, 0, none⟩)).reply_rate = 3 := by
    norm_num [exportRow, qRate]
  refine ⟨by norm_num [exportRow], hrate, ?_⟩
  norm_num [lowPerformers, sortByReplyRateAsc, List.filter, hrate]

instance instReplyAscTotal :
    IsTotal CampaignExportData (fun a b => a.reply_rate ≤ b.reply_rate) :=
  ⟨fun a b => le_total a.reply_rate b.reply_rate⟩

instance instReplyAscTrans :
    IsTrans CampaignExportData (fun a b => a.reply_rate ≤ b.reply_rate) :=
  ⟨fun _ _ _ hab hbc => le_trans hab hbc⟩

/-- The ascending reply-rate sort produces a sorted list. -/
theorem sortByReplyRateAsc_sorted (l : List CampaignExportData) :
    List.Sorted (fun a b => a.reply_rate ≤ b.reply_rate) (sortByReplyRateAsc l) :=
  List.sorted_insertionSort _ l

/-- The ascending reply-rate sort permutes its input. -/
theorem sortByReplyRateAsc_perm (l : List CampaignExportData) :
    (sortByReplyRateAsc l).Perm l :=
  List.perm_insertionSort _ l

/-- C8 (amended): the "needing improvement" list is restricted to campaigns
with more than 10 sends AND a reply rate strictly below 2%: every listed row
satisfies both conditions and comes from the data; the list holds at most
five rows, in ascending reply-rate order, and contains the lowest
reply-rate campaigns among those satisfying both conditions (any qualifying
row left out has a reply rate at least as high as every listed row). -/
theorem claim_C8_amended (data : List CampaignExportData) :
    (∀ r ∈ lowPerformers data, 10 < r.sent_count ∧ r.reply_rate < 2 ∧ r ∈ data) ∧
    (lowPerformers data).length ≤ 5 ∧
    List.Sorted (fun a b => a.reply_rate ≤ b.reply_rate) (lowPerformers data) ∧
    (∀ r ∈ lowPerformers data, ∀ y ∈ data,
      10 < y.sent_count → y.reply_rate < 2 → y ∉ lowPerformers data →
      r.reply_rate ≤ y.reply_rate) := by
  have hsorted := sortByReplyRateAsc_sorted (data.filter (fun c =>
    decide (c.reply_rate < 2) && decide (10 < c.sent_count)))
  have hperm := sortByReplyRateAsc_perm (data.filter (fun c =>
    decide (c.reply_rate < 2) && decide (10 < c.sent_count)))
  refine ⟨?_, ?_, ?_, ?_⟩
  · intro r hr
    have hr1 : r ∈ sortByReplyRateAsc (data.filter (fun c =>
        decide (c.reply_rate < 2) && decide (10 < c.sent_count))) :=
      List.take_subset _ _ hr
    have hr2 := hperm.mem_iff.mp hr1
    have hr3 := List.mem_filter.mp hr2
    have hcond := hr3.2
    simp only [Bool.and_eq_true, decide_eq_true_eq] at hcond
    exact ⟨hcond.2, hcond.1, hr3.1⟩
  · simp only [lowPerformers, List.length_take]
    exact min_le_left _ _
  · exact List.Pairwise.sublist (List.take_sublist _ _) hsorted
  · intro r hr y hy h10 h2 hnot
    have hyelig : y ∈ data.filter (fun c =>
        decide (c.reply_rate < 2) && decide (10 < c.sent_count)) :=
      List.mem_filter.mpr ⟨hy, by simp [h2, h10]⟩
    have hysort := hperm.mem_iff.mpr hyelig
    have hsplit := List.take_append_drop 5 (sortByReplyRateAsc (data.filter (fun c =>
      decide (c.reply_rate < 2) && decide (10 < c.sent_count))))
    have hy2 : y ∈ (sortByReplyRateAsc (data.filter (fun c =>
        decide (c.reply_rate < 2) && decide (10 < c.sent_count)))).take 5 ++
        (sortByReplyRateAsc (data.filter (fun c =>
        decide (c.reply_rate < 2) && decide (10 < c.sent_count)))).drop 5 := by
      rw [hsplit]; exact hysort
    rcases List.mem_append.mp hy2 with h | h
    · exact absurd h hnot
    · have hpw : List.Pairwise (fun a b => a.reply_rate ≤ b.reply_rate)
          ((sortByReplyRateAsc (data.filter (fun c =>
            decide (c.reply_rate < 2) && decide (10 < c.sent_count)))).take 5 ++
           (sortByReplyRateAsc (data.filter (fun c =>
            decide (c.reply_rate < 2) && decide (10 < c.sent_count)))).drop 5) := by
        rw [hsplit]; exact hsorted
      exact (List.pairwise_append.mp hpw).2.2 r hr y h

/-- C8 (amended), instantiated: a 100-send, 1%-reply-rate row is listed, and
the theorem yields that it satisfies both filter conditions and comes from
the data. -/
theorem claim_C8_amended_witness :
    10 < (exportRow [] ⟨1, "A", "ACTIVE", 0, none⟩
      (some ⟨1, 100, 0, 0, 1, 0, 0, none⟩)).sent_count ∧
    (exportRow [] ⟨1, "A", "ACTIVE", 0, none⟩
      (some ⟨1, 100, 0, 0, 1, 0, 0, none⟩)).reply_rate < 2 ∧
    (exportRow [] ⟨1, "A", "ACTIVE", 0, none⟩
      (some ⟨1, 100, 0, 0, 1, 0, 0, none⟩)) ∈
      [exportRow [] ⟨1, "A", "ACTIVE", 0, none⟩
        (some ⟨1, 100, 0, 0, 1, 0, 0, none⟩)] := by
  have hrate : (exportRow [] ⟨1, "A", "ACTIVE", 0, none⟩
      (some ⟨1, 100, 0, 0, 1, 0, 0, none⟩)).reply_rate = 1 := by
    norm_num [exportRow, qRate]
  have hmem : exportRow [] ⟨1, "A", "ACTIVE", 0, none⟩
      (some ⟨1, 100, 0, 0, 1, 0, 0, none⟩) ∈
      lowPerformers [exportRow [] ⟨1, "A", "ACTIVE", 0, none⟩
        (some ⟨1, 100, 0, 0, 1, 0, 0, none⟩)] := by
    norm_num [lowPerformers, sortByReplyRateAsc, List.filter, List.insertionSort,
      List.orderedInsert, hrate]
  exact (claim_C8_amended _).1 _ hmem

/-- The metric average over an empty row collection is `0 / 0 = NaN`. -/
theorem avgMetricCell_nil (f : CampaignExportData → ℚ) :
    avgMetricCell f [] = JSNum.nan := by
  simp [avgMetricCell, sumBy, jsDiv]

/-- C10: an export over an empty filtered campaign list is not rejected —
`generateCampaignExport` still succeeds and builds all sheets.  The summary
sheet degrades to the single cell "No data available for the selected
criteria", while the charts sheet's metric rows hold the raw `NaN` produced
by dividing the zero metric sum by the length 0, and the quick-charts
sheet's metric rows render that `NaN` as the string "NaN%". -/
theorem claim_C10 (clients : List ClientData) (sd ed : ℤ) (gen : String) :
    (generateCampaignExport [] [] clients sd ed none gen).success = true ∧
    (generateCampaignExport [] [] clients sd ed none gen).summarySheet =
      [[cellS "No data available for the selected criteria"]] ∧
    ([cellS "Open Rate", Cell.jn .nan, cellN 25] ∈
      (generateCampaignExport [] [] clients sd ed none gen).chartsSheet ∧
     [cellS "Click Rate", Cell.jn .nan, cellN 5] ∈
      (generateCampaignExport [] [] clients sd ed none gen).chartsSheet ∧
     [cellS "Reply Rate", Cell.jn .nan, cellN 2] ∈
      (generateCampaignExport [] [] clients sd ed none gen).chartsSheet ∧
     [cellS "Bounce Rate", Cell.jn .nan, cellN 2] ∈
      (generateCampaignExport [] [] clients sd ed none gen).chartsSheet) ∧
    ([cellS "Open Rate", cellS "NaN%", cellS "25%"] ∈
      (generateCampaignExport [] [] clients sd ed none gen).quickChartsSheet ∧
     [cellS "Click Rate", cellS "NaN%", cellS "5%"] ∈
      (generateCampaignExport [] [] clients sd ed none gen).quickChartsSheet ∧
     [cellS "Reply Rate", cellS "NaN%", cellS "2%"] ∈
      (generateCampaignExport [] [] clients sd ed none gen).quickChartsSheet ∧
     [cellS "Bounce Rate", cellS "NaN%", cellS "2%"] ∈
      (generateCampaignExport [] [] clients sd ed none gen).quickChartsSheet) := by
  have hed : (generateCampaignExport [] [] clients sd ed none gen).chartsSheet =
      createChartsSheet [] clients := rfl
  have hqd : (generateCampaignExport [] [] clients sd ed none gen).quickChartsSheet =
      createQuickChartsSheet [] clients := rfl
  refine ⟨rfl, rfl, ⟨?_, ?_, ?_, ?_⟩, ⟨?_, ?_, ?_, ?_⟩⟩ <;>
    first
    | rw [hed]
    | rw [hqd]
  all_goals
    refine List.mem_append_right _ ?_
  all_goals
    simp [avgMetricCell_nil, jsToFixed2]
